import Mathlib

/-!
Shallow embedding of `hphp/runtime/ext/xdebug/ext_xdebug.cpp` (the xdebug
extension of HHVM): the filename templater, the profiler lifecycle state
machine, the code-coverage toggles, and the trigger inspection, together
with theorems about the claims on that code.

Machine integers are modelled as `Int` (the observed arithmetic never
overflows 64 bits in the modelled scenarios); PHP variants are modelled by
an inductive `PVal`; ambient superglobals are association lists from string
keys to `PVal`.
-/

namespace XDebug

/-- A PHP variant value, as far as the embedded code observes it:
null, booleans, integers, strings and string-keyed arrays.
All keys that the embedded code ever looks up are strings, so array keys
are modelled as `String` (the integer key `0` produced by `toArray` on a
scalar is rendered as the string key `"0"`). -/
inductive PVal where
  | vnull
  | vbool (b : Bool)
  | vint (n : Int)
  | vstr (s : String)
  | varr (entries : List (String × PVal))

/-- `Variant::isString`. -/
def PVal.isString : PVal → Bool
  | .vstr _ => true
  | _ => false

/-- `Variant::toString` on the values the embedded code converts:
null becomes the empty string, booleans become `"1"`/`""`, integers print
in decimal, arrays print as `"Array"`. -/
def PVal.toStr : PVal → String
  | .vnull => ""
  | .vbool b => if b then "1" else ""
  | .vint n => toString n
  | .vstr s => s
  | .varr _ => "Array"

/-- `Variant::toArray`: an array converts to itself, null to the empty
array, any other scalar to a one-element array keyed by `0`. -/
def PVal.toArr : PVal → List (String × PVal)
  | .varr a => a
  | .vnull => []
  | v => [("0", v)]

/-- Association-list lookup used to model `ArrayData`/`Array` key access. -/
def lookupKey (a : List (String × PVal)) (k : String) : Option PVal :=
  (a.find? (fun p => p.1 == k)).map (fun p => p.2)

/-- `Array::exists` / `ArrayData::exists`. -/
def aexists (a : List (String × PVal)) (k : String) : Bool :=
  (lookupKey a k).isSome

/-- `Array` element read (`server[key]`): a missing key reads as null. -/
def aget (a : List (String × PVal)) (k : String) : PVal :=
  (lookupKey a k).getD PVal.vnull

/-- The characters xdebug deems "special" in `replace_special_chars`. -/
def isSpecialChar (c : Char) : Bool :=
  c == '/' || c == '\\' || c == '.' || c == '?' || c == '&' || c == '+' || c == ' '

/-- `replace_special_chars`: replace each special character with `_`
(the in-place loop over the string's bytes). -/
def replace_special_chars (s : String) : String :=
  String.mk (s.data.map (fun c => if isSpecialChar c then '_' else c))

/-- The snapshot of ambient request data that `format_filename` reads:
the superglobals array (`get_global_variables()`), the crc32 of the
current working directory, the process id, the hex rendering of the
random number, the two clock readings, and the result of
`IniSetting::Get("session.name", ...)` (`none` when the lookup fails). -/
structure FormatCtx where
  globals : List (String × PVal)
  cwdCrc32 : Int
  pid : Int
  randHex : String
  timeSec : Int
  timeOfDay : Option (Int × Int)
  sessionName : Option String

/-- The `$_SERVER` array as `format_filename` fetches it:
`globals->get(s_SERVER).toArray()`. -/
def serverArr (ctx : FormatCtx) : List (String × PVal) :=
  (aget ctx.globals "_SERVER").toArr

/-- The cookie array as the source fetches it. The source's `s_COOKIE`
static string is bound to the literal `"_COOOKIE"` (three O's), so this is
what every cookie lookup in the file actually reads. -/
def cookieArr (globals : List (String × PVal)) : List (String × PVal) :=
  (aget globals "_COOOKIE").toArr

/-- One directive of `format_filename`'s switch: the string appended to
the buffer for the character following a `%`. The `'S'` case mirrors the
source's missing `break`: when `IniSetting::Get` fails, control falls
through into the literal-percent case. The `'R'` case mirrors the source's
`globals->exists(s_REQUEST_URI)` presence test on the top-level globals
array. -/
def directive (ctx : FormatCtx) (c : Char) : String :=
  if c == 'c' then toString ctx.cwdCrc32
  else if c == 'p' then toString ctx.pid
  else if c == 'r' then ctx.randHex
  else if c == 's' then
    let server := serverArr ctx
    if aexists server "SCRIPT_NAME" && (aget server "SCRIPT_NAME").isString then
      replace_special_chars (aget server "SCRIPT_NAME").toStr
    else ""
  else if c == 't' then
    if ctx.timeSec != -1 then toString ctx.timeSec else ""
  else if c == 'u' then
    match ctx.timeOfDay with
    | some sec_usec => toString sec_usec.1 ++ "_" ++ toString sec_usec.2
    | none => ""
  else if c == 'H' then
    let server := serverArr ctx
    if aexists server "HTTP_HOST" && (aget server "HTTP_HOST").isString then
      replace_special_chars (aget server "HTTP_HOST").toStr
    else ""
  else if c == 'R' then
    let server := serverArr ctx
    if aexists ctx.globals "REQUEST_URI" then
      replace_special_chars (aget server "REQUEST_URI").toStr
    else ""
  else if c == 'U' then
    let server := serverArr ctx
    if aexists server "UNIQUE_ID" && (aget server "UNIQUE_ID").isString then
      replace_special_chars (aget server "UNIQUE_ID").toStr
    else ""
  else if c == 'S' then
    match ctx.sessionName with
    | some sname =>
      let cookies := cookieArr ctx.globals
      if aexists cookies sname && (aget cookies sname).isString then
        replace_special_chars (aget cookies sname).toStr
      else ""
    | none => "%"
  else if c == '%' then "%"
  else "%" ++ String.singleton c

/-- The scanning loop of `format_filename`: a non-`%` character is copied
verbatim, a `%` that is the last character is copied verbatim, and a `%`
followed by another character consumes that character as a directive. -/
def formatChars (ctx : FormatCtx) : List Char → String
  | [] => ""
  | c :: rest =>
    if c != '%' then String.singleton c ++ formatChars ctx rest
    else match rest with
      | [] => "%"
      | d :: rest2 => directive ctx d ++ formatChars ctx rest2

/-- `format_filename`: optional directory followed by `/`, the resolved
template, and the optional `.xt` suffix. -/
def format_filename (ctx : FormatCtx) (dir : Option String)
    (formatFile : String) (addSuffix : Bool) : String :=
  (match dir with
   | some d => d ++ "/"
   | none => "") ++
  formatChars ctx formatFile.toList ++
  (if addSuffix then ".xt" else "")

/-- `XDebugExtension::isTriggerSet`: fetches `$_GET`, `$_POST` and the
array under the source's `s_COOKIE` key (the literal `"_COOOKIE"`), and
tests for presence of the trigger in cookies, get, then post. -/
def isTriggerSet (globals : List (String × PVal)) (trigger : String) : Bool :=
  let get := (aget globals "_GET").toArr
  let post := (aget globals "_POST").toArr
  let cookies := cookieArr globals
  aexists cookies trigger || aexists get trigger || aexists post trigger

/-- `xdebug_memory_usage`: clamps the allocator usage reading at zero
(`std::max<int64_t>(usage, 0)`). -/
def xdebug_memory_usage (usage : Int) : Int :=
  max usage 0

/-- The error taxonomy of the embedded operations. `assertFail` marks a
violated source `assert`; `profilerUnavailable` models the
`raise_error("Could not start xdebug profiler...")` call;
`unsupportedOption` models the `raise_error` for unsupported coverage
modes. -/
inductive XErr where
  | profilerUnavailable
  | unsupportedOption
  | assertFail
deriving DecidableEq

/-- The per-thread code-coverage state: the request-injection coverage
flag and the accumulated coverage map (kept abstract as a list of
file/line counts). -/
structure CovState where
  coverage : Bool
  covData : List (String × Int)
deriving DecidableEq

/-- `xdebug_start_code_coverage`: a nonzero options value raises the
unsupported-option error before touching any state; otherwise the
coverage flag is turned on (the nested-VM `raise_notice` is a non-fatal
advisory and changes no state; the final `throw VMSwitchModeBuiltin()` is
an interpreter mode switch, not an error). -/
def xdebug_start_code_coverage (options : Int) (st : CovState) :
    Option XErr × CovState :=
  if options != 0 then (some XErr.unsupportedOption, st)
  else (none, { st with coverage := true })

/-- `xdebug_stop_code_coverage`: turn the flag off; with cleanup also
reset the accumulated data. -/
def xdebug_stop_code_coverage (cleanup : Bool) (st : CovState) : CovState :=
  let st1 : CovState := { st with coverage := false }
  if cleanup then { st1 with covData := [] } else st1

/-- Modelled from the spec: the trace option bit-flags
(`k_XDEBUG_TRACE_APPEND` and friends) are declared in the extension
header, which is not among these sources; the spec describes them as
bit-flags for append-to-existing-file, output-format variant and
naked-filename, so distinct single bits are chosen. -/
def k_XDEBUG_TRACE_APPEND : Int := 1

/-- Modelled from the spec: trace output-format bit, computerized
variant. -/
def k_XDEBUG_TRACE_COMPUTERIZED : Int := 2

/-- Modelled from the spec: trace output-format bit, html variant. -/
def k_XDEBUG_TRACE_HTML : Int := 4

/-- Modelled from the spec: trace naked-filename bit (suppress the `.xt`
suffix). -/
def k_XDEBUG_TRACE_NAKED_FILENAME : Int := 8

/-- Modelled from the spec: profile append-to-existing-file bit. -/
def k_XDEBUG_PROFILE_APPEND : Int := 1

/-- Modelled from the spec: the opaque per-thread profiler
(`XDebugProfiler`, whose implementation is not among these sources).
Per the spec it carries at most one tracing session and one profiling
session, remembers the last path and options passed to the corresponding
enable call, and exposes the collect-memory/collect-time settings. -/
structure Profiler where
  tracing : Bool
  tracingFilename : String
  tracingOptions : Int
  profiling : Bool
  profilingFilename : String
  profilingOptions : Int
  collectMemory : Bool
  collectTime : Bool
deriving DecidableEq

/-- Modelled from the spec: a freshly created profiler is neither tracing
nor profiling. -/
def freshProfiler : Profiler :=
  { tracing := false, tracingFilename := "", tracingOptions := 0,
    profiling := false, profilingFilename := "", profilingOptions := 0,
    collectMemory := false, collectTime := false }

/-- Modelled from the spec: `enableTracing` is an idempotent no-op when
already tracing, otherwise records the path and options and starts
tracing. -/
def Profiler.enableTracing (p : Profiler) (path : String) (options : Int) :
    Profiler :=
  if p.tracing then p
  else { p with tracing := true, tracingFilename := path,
                tracingOptions := options }

/-- Modelled from the spec: `disableTracing` when not tracing is a
no-op. -/
def Profiler.disableTracing (p : Profiler) : Profiler :=
  { p with tracing := false }

/-- Modelled from the spec: `isTracing`. -/
def Profiler.isTracing (p : Profiler) : Bool := p.tracing

/-- Modelled from the spec: `getTracingFilename` returns the last path
passed to `enableTracing`. -/
def Profiler.getTracingFilename (p : Profiler) : String := p.tracingFilename

/-- Modelled from the spec: `enableProfiling`, idempotent no-op when
already profiling. -/
def Profiler.enableProfiling (p : Profiler) (path : String) (options : Int) :
    Profiler :=
  if p.profiling then p
  else { p with profiling := true, profilingFilename := path,
                profilingOptions := options }

/-- Modelled from the spec: `isProfiling`. -/
def Profiler.isProfiling (p : Profiler) : Bool := p.profiling

/-- Modelled from the spec: `getProfilingFilename`. -/
def Profiler.getProfilingFilename (p : Profiler) : String :=
  p.profilingFilename

/-- Modelled from the spec: `isCollecting` is true when tracing or
profiling is active. -/
def Profiler.isCollecting (p : Profiler) : Bool := p.tracing || p.profiling

/-- Modelled from the spec: `setCollectMemory`. -/
def Profiler.setCollectMemory (p : Profiler) (b : Bool) : Profiler :=
  { p with collectMemory := b }

/-- Modelled from the spec: `setCollectTime`. -/
def Profiler.setCollectTime (p : Profiler) (b : Bool) : Profiler :=
  { p with collectTime := b }

/-- Modelled from the spec: `beginFrame(nullptr)` marks the trace's
logical begin frame; it starts no session and changes none of the state
this embedding observes. -/
def Profiler.beginFrame (p : Profiler) : Profiler := p

/-- The extension configuration read by the embedded operations:
`XDebugExtension` statics bound from ini/hdf settings. `TraceOptions` is
the integer tested for truthiness at the top of `start_tracing`;
`profilingNeeded`/`tracingNeeded` model the policy predicates
`isProfilingNeeded()`/`isTracingNeeded()` (declared in the header, not
among these sources) as opaque outcomes; `explicitEnable` and
`triggerKey` model the ingredients of `isProfilerNeeded()` per the spec's
automatic-attach policy. -/
structure Config where
  Enable : Bool
  TraceOptions : Int
  TraceFormat : Int
  TraceOutputDir : String
  TraceOutputName : String
  ProfilerAppend : Bool
  ProfilerOutputDir : String
  ProfilerOutputName : String
  CollectMemory : Bool
  CollectTime : Bool
  profilingNeeded : Bool
  tracingNeeded : Bool
  explicitEnable : Bool
  triggerKey : String
deriving DecidableEq

/-- The profiler factory's per-thread slot: free, holding the xdebug
profiler, or holding some other profiler (in which case
`ProfilerFactory::start` fails). -/
inductive FSlot where
  | empty
  | xdebug (p : Profiler)
  | other
deriving DecidableEq

/-- `FSlot.empty` test is implicit; this recognizes the xdebug-bound
slot. -/
def FSlot.isX : FSlot → Bool
  | .xdebug _ => true
  | _ => false

/-- The per-request state the lifecycle operations act on:
`XDebugRequestData::m_profiler_attached` and the factory slot. -/
structure SysState where
  m_profiler_attached : Bool
  slot : FSlot
deriving DecidableEq

/-- The accuracy invariant of the attachment flag: the flag is set iff
the factory slot holds the xdebug profiler. -/
def goodState (s : SysState) : Bool :=
  s.m_profiler_attached == s.slot.isX

/-- The observable "currently tracing" fact of a state. -/
def tracingActive (s : SysState) : Bool :=
  match s.slot with
  | .xdebug p => p.tracing
  | _ => false

/-- The ini-derived option merge at the top of `start_tracing`:
`TraceOptions` truthy adds the append bit, `TraceFormat` 1 or 2 adds the
corresponding output-format bit. -/
def mergedTraceOptions (cfg : Config) (options : Int) : Int :=
  let o1 := if cfg.TraceOptions != 0
            then Int.lor options k_XDEBUG_TRACE_APPEND else options
  let o2 := if cfg.TraceFormat == 1
            then Int.lor o1 k_XDEBUG_TRACE_COMPUTERIZED else o1
  if cfg.TraceFormat == 2 then Int.lor o2 k_XDEBUG_TRACE_HTML else o2

/-- `start_tracing`: merge ini flags into the options, fall back to the
configured default directory and name when no filename is passed, honor
the naked-filename bit for the `.xt` suffix, and enable tracing on the
profiler with the resolved absolute path. -/
def start_tracing (cfg : Config) (ctx : FormatCtx) (p : Profiler)
    (filename : Option String) (options : Int) : Profiler :=
  let options := mergedTraceOptions cfg options
  let dirfile : Option String × String :=
    match filename with
    | none => (some cfg.TraceOutputDir, cfg.TraceOutputName)
    | some f => (none, f)
  let suffix := Int.land options k_XDEBUG_TRACE_NAKED_FILENAME == 0
  let abs_filename := format_filename ctx dirfile.1 dirfile.2 suffix
  p.enableTracing abs_filename options

/-- `start_profiling`: merge the configured append flag, resolve the
configured profiler directory and name (no suffix), and enable
profiling. -/
def start_profiling (cfg : Config) (ctx : FormatCtx) (p : Profiler) :
    Profiler :=
  let opts : Int := if cfg.ProfilerAppend then k_XDEBUG_PROFILE_APPEND else 0
  let abs_filename :=
    format_filename ctx (some cfg.ProfilerOutputDir) cfg.ProfilerOutputName
      false
  p.enableProfiling abs_filename opts

/-- `attach_xdebug_profiler`: asserts not attached; on factory success
binds a fresh profiler, sets the attached flag, auto-starts profiling
and/or tracing per policy and applies the collect settings; on factory
failure raises the profiler-unavailable error and changes nothing. -/
def attach_xdebug_profiler (cfg : Config) (ctx : FormatCtx) (s : SysState) :
    Option XErr × SysState :=
  if s.m_profiler_attached then (some XErr.assertFail, s)
  else match s.slot with
    | FSlot.empty =>
      let p := freshProfiler
      let p := if cfg.profilingNeeded then start_profiling cfg ctx p else p
      let p := if cfg.tracingNeeded then start_tracing cfg ctx p none 0 else p
      let p := (p.setCollectMemory cfg.CollectMemory).setCollectTime
        cfg.CollectTime
      (none, { m_profiler_attached := true, slot := FSlot.xdebug p })
    | _ => (some XErr.profilerUnavailable, s)

/-- `detach_xdebug_profiler`: asserts attached; stops the factory
(freeing the slot) and clears the attached flag. -/
def detach_xdebug_profiler (s : SysState) : Option XErr × SysState :=
  if s.m_profiler_attached then
    (none, { m_profiler_attached := false, slot := FSlot.empty })
  else (some XErr.assertFail, s)

/-- `detach_xdebug_profiler_if_needed`: asserts attached; detaches when
the bound profiler is not collecting.  A state in which the flag is set
but the slot does not hold the xdebug profiler trips the
`xdebug_profiler()` assertion. -/
def detach_xdebug_profiler_if_needed (s : SysState) : Option XErr × SysState :=
  if s.m_profiler_attached then
    match s.slot with
    | FSlot.xdebug p =>
      if !p.isCollecting then detach_xdebug_profiler s else (none, s)
    | _ => (some XErr.assertFail, s)
  else (some XErr.assertFail, s)

/-- The variant values returned by the trace operations: boolean false or
a filename string. -/
inductive RVal where
  | vfalse
  | vpath (s : String)
deriving DecidableEq

/-- `xdebug_get_tracefile_name`: the tracing filename when a profiler is
attached and tracing, boolean false otherwise. -/
def xdebug_get_tracefile_name (s : SysState) : RVal :=
  if s.m_profiler_attached then
    match s.slot with
    | FSlot.xdebug p =>
      if p.isTracing then RVal.vpath p.getTracingFilename else RVal.vfalse
    | _ => RVal.vfalse
  else RVal.vfalse

/-- The conversion of `xdebug_start_trace`'s variant argument: a string
argument supplies the filename, anything else counts as no filename. -/
def traceFileOf (traceFileVar : PVal) : Option String :=
  if traceFileVar.isString then some traceFileVar.toStr else none

/-- The tail of `xdebug_start_trace` once a profiler is attached
(`xdebug_profiler()` through the return): return false when already
tracing; otherwise start tracing, mark the begin frame and return
`xdebug_get_tracefile_name()`. -/
def start_trace_attached (cfg : Config) (ctx : FormatCtx)
    (traceFile : Option String) (options : Int) (s1 : SysState) :
    Except XErr RVal × SysState :=
  match s1.slot with
  | FSlot.xdebug p =>
    if p.isTracing then (Except.ok RVal.vfalse, s1)
    else
      let p2 := (start_tracing cfg ctx p traceFile options).beginFrame
      let s2 : SysState := { s1 with slot := FSlot.xdebug p2 }
      (Except.ok (xdebug_get_tracefile_name s2), s2)
  | _ => (Except.error XErr.assertFail, s1)

/-- `xdebug_start_trace`: a non-string trace-file argument counts as no
filename; attach first when not attached (propagating the attach
error); then proceed per `start_trace_attached`. -/
def xdebug_start_trace (cfg : Config) (ctx : FormatCtx)
    (traceFileVar : PVal) (options : Int) (s : SysState) :
    Except XErr RVal × SysState :=
  match (if !s.m_profiler_attached then attach_xdebug_profiler cfg ctx s
         else (none, s)) with
  | (some e, s1) => (Except.error e, s1)
  | (none, s1) =>
    start_trace_attached cfg ctx (traceFileOf traceFileVar) options s1

/-- The tail of `xdebug_stop_trace` after tracing has been disabled: run
the conditional detach and return the captured filename (propagating an
assertion failure from the conditional detach). -/
def stop_trace_finish (filename : String) (s1 : SysState) :
    Except XErr RVal × SysState :=
  match detach_xdebug_profiler_if_needed s1 with
  | (some e, s2) => (Except.error e, s2)
  | (none, s2) => (Except.ok (RVal.vpath filename), s2)

/-- `xdebug_stop_trace`: when attached and tracing, capture the filename,
disable tracing, run the conditional detach and return the filename;
otherwise return false. -/
def xdebug_stop_trace (s : SysState) : Except XErr RVal × SysState :=
  if s.m_profiler_attached then
    match s.slot with
    | FSlot.xdebug p =>
      if p.isTracing then
        stop_trace_finish p.getTracingFilename
          { s with slot := FSlot.xdebug p.disableTracing }
      else (Except.ok RVal.vfalse, s)
    | _ => (Except.error XErr.assertFail, s)
  else (Except.ok RVal.vfalse, s)

/-- Modelled from the spec: `XDebugExtension::isProfilerNeeded` (declared
in the header, not among these sources): profiling is needed when an
explicit configuration enable flag is set or the configured trigger key
is present per `isTriggerSet`. -/
def isProfilerNeeded (cfg : Config) (globals : List (String × PVal)) : Bool :=
  cfg.explicitEnable || isTriggerSet globals cfg.triggerKey

/-- `XDebugExtension::requestInit` (and `_xdebug_check_trigger_vars`):
attach when the extension is enabled and the profiler is needed. -/
def requestInit (cfg : Config) (ctx : FormatCtx) (s : SysState) :
    Option XErr × SysState :=
  if cfg.Enable && isProfilerNeeded cfg ctx.globals then
    attach_xdebug_profiler cfg ctx s
  else (none, s)

/-- `XDebugExtension::requestShutdown`: detach when enabled and still
attached. -/
def requestShutdown (cfg : Config) (s : SysState) : Option XErr × SysState :=
  if cfg.Enable && s.m_profiler_attached then detach_xdebug_profiler s
  else (none, s)

/-- The operations of the attachment state machine, as the claims range
over them. -/
inductive Event where
  | attach
  | detach
  | detachIfIdle
  | startTrace (file : PVal) (options : Int)
  | stopTrace
  | shutdown

/-- One step of the state machine: the error raised (if any) and the
resulting state. -/
def stepEvent (cfg : Config) (ctx : FormatCtx) (s : SysState) :
    Event → Option XErr × SysState
  | Event.attach => attach_xdebug_profiler cfg ctx s
  | Event.detach => detach_xdebug_profiler s
  | Event.detachIfIdle => detach_xdebug_profiler_if_needed s
  | Event.startTrace f o =>
    let r := xdebug_start_trace cfg ctx f o s
    (match r.1 with
     | Except.error e => some e
     | Except.ok _ => none, r.2)
  | Event.stopTrace =>
    let r := xdebug_stop_trace s
    (match r.1 with
     | Except.error e => some e
     | Except.ok _ => none, r.2)
  | Event.shutdown => requestShutdown cfg s

/-- Run a sequence of operations: the boolean records that no source
assertion was violated along the way; the state is the final state. -/
def runEvents (cfg : Config) (ctx : FormatCtx) :
    SysState → List Event → Bool × SysState
  | s, [] => (true, s)
  | s, e :: rest =>
    let r := stepEvent cfg ctx s e
    let t := runEvents cfg ctx r.2 rest
    let bad : Bool :=
      match r.1 with
      | some XErr.assertFail => true
      | _ => false
    ((!bad) && t.1, t.2)

/-- The profiler bound by a successful attach: a fresh profiler, with
profiling auto-started when configured and the collection flags
applied (the no-auto-tracing shape). -/
def attachedProfiler (cfg : Config) (ctx : FormatCtx) : Profiler :=
  ((if cfg.profilingNeeded then start_profiling cfg ctx freshProfiler
    else freshProfiler).setCollectMemory cfg.CollectMemory).setCollectTime
    cfg.CollectTime

/-- The absolute path `start_tracing` resolves for a given optional
caller filename and caller options. -/
def tracePath (cfg : Config) (ctx : FormatCtx) (tf : Option String)
    (options : Int) : String :=
  format_filename ctx
    (match tf with
     | none => some cfg.TraceOutputDir
     | some _ => none)
    (match tf with
     | none => cfg.TraceOutputName
     | some f => f)
    (Int.land (mergedTraceOptions cfg options) k_XDEBUG_TRACE_NAKED_FILENAME
      == 0)

/-- The profiler after `start_tracing` runs on a profiler that was not
yet tracing. -/
def tracedProfiler (cfg : Config) (ctx : FormatCtx) (p : Profiler)
    (tf : Option String) (options : Int) : Profiler :=
  { p with tracing := true,
           tracingFilename := tracePath cfg ctx tf options,
           tracingOptions := mergedTraceOptions cfg options }

/-- A concrete request context used by the witnesses: empty superglobals,
fixed clock readings, no session-name setting. -/
def ctxA : FormatCtx :=
  { globals := [], cwdCrc32 := 77, pid := 1234, randHex := "2a",
    timeSec := 99, timeOfDay := some (99, 5), sessionName := none }

/-- A concrete configuration used by the witnesses: enabled, plain trace
format, no automatic profiling or tracing, no explicit enable flags. -/
def cfgA : Config :=
  { Enable := true, TraceOptions := 0, TraceFormat := 0,
    TraceOutputDir := "/tmp", TraceOutputName := "trace",
    ProfilerAppend := false, ProfilerOutputDir := "/tmp",
    ProfilerOutputName := "prof", CollectMemory := false,
    CollectTime := false, profilingNeeded := false, tracingNeeded := false,
    explicitEnable := false, triggerKey := "XDEBUG_PROFILE" }

/-- The initial request state: detached, free factory slot. -/
def sInit : SysState := { m_profiler_attached := false, slot := FSlot.empty }

/-- A concrete operation sequence used by the C1 witness. -/
def evsA : List Event :=
  [Event.startTrace (PVal.vstr "foo") 0, Event.stopTrace, Event.shutdown]

/-- The C2 counterexample configuration: identical to `cfgA` except that
configuration requests automatic tracing at attach. -/
def cfgAutoTrace : Config := { cfgA with tracingNeeded := true }

/-- A request context whose session-name setting is absent, for the `%S`
directive. -/
def ctxNoSession : FormatCtx := ctxA

/-- A request context with a session-name setting and a matching cookie
stored under the key the source actually reads (`"_COOOKIE"`). -/
def ctxSession : FormatCtx :=
  { ctxA with
    sessionName := some "PHPSESSID",
    globals := [("_COOOKIE", PVal.varr [("PHPSESSID", PVal.vstr "a.b c")])] }

/-- Superglobals with the profiling trigger present only in the real
cookie superglobal `$_COOKIE`. -/
def gCookieOnly : List (String × PVal) :=
  [("_COOKIE", PVal.varr [("XDEBUG_PROFILE", PVal.vstr "1")]),
   ("_GET", PVal.varr []), ("_POST", PVal.varr [])]

/-- Superglobals with the trigger stored under the misspelled key
`"_COOOKIE"` that the source's `s_COOKIE` string actually denotes. -/
def gTypoCookie : List (String × PVal) :=
  [("_COOOKIE", PVal.varr [("XDEBUG_PROFILE", PVal.vstr "1")])]

/-- The request context of the C4 failing input. -/
def ctxC4 : FormatCtx := { ctxA with globals := gCookieOnly }

/-- Superglobals whose `$_SERVER` map carries `REQUEST_URI` while the
top-level globals array has no `REQUEST_URI` key. -/
def gServerUri : List (String × PVal) :=
  [("_SERVER", PVal.varr [("REQUEST_URI", PVal.vstr "/foo bar")])]

/-- The request context of the C5 failing input. -/
def ctxC5 : FormatCtx := { ctxA with globals := gServerUri }

/-- The C5 context with a top-level `REQUEST_URI` key added, which is
what the source's presence test actually consults. -/
def ctxC5top : FormatCtx :=
  { ctxA with
    globals := ("REQUEST_URI", PVal.vstr "x") :: gServerUri }

/-- The characters that label a case of `format_filename`'s directive
switch. -/
def isDirectiveChar (c : Char) : Bool :=
  c == 'c' || c == 'p' || c == 'r' || c == 's' || c == 't' || c == 'u' ||
  c == 'H' || c == 'R' || c == 'U' || c == 'S' || c == '%'

/-- A concrete profiler that is currently tracing, for the C7 witness. -/
def pTracing : Profiler :=
  { freshProfiler with tracing := true, tracingFilename := "/tmp/t.xt" }

/-- A concrete attached-and-tracing state, for the C7 witness. -/
def sTracing : SysState :=
  { m_profiler_attached := true, slot := FSlot.xdebug pTracing }

end XDebug

namespace XDebug

theorem attach_good (cfg : Config) (ctx : FormatCtx) {s : SysState}
    (h : goodState s = true) :
    goodState (attach_xdebug_profiler cfg ctx s).2 = true := by
  unfold attach_xdebug_profiler
  split
  · exact h
  · split
    · simp [goodState, FSlot.isX]
    · exact h

theorem detach_good {s : SysState} (h : goodState s = true) :
    goodState (detach_xdebug_profiler s).2 = true := by
  unfold detach_xdebug_profiler
  split
  · simp [goodState, FSlot.isX]
  · exact h

theorem detachIf_good {s : SysState} (h : goodState s = true) :
    goodState (detach_xdebug_profiler_if_needed s).2 = true := by
  unfold detach_xdebug_profiler_if_needed
  split
  · split
    · split
      · exact detach_good h
      · exact h
    · exact h
  · exact h

theorem startTraceAtt_good (cfg : Config) (ctx : FormatCtx)
    (tf : Option String) (o : Int) {s1 : SysState}
    (h : goodState s1 = true) :
    goodState (start_trace_attached cfg ctx tf o s1).2 = true := by
  unfold start_trace_attached
  split
  · next p hp =>
    split
    · exact h
    · have hattp : s1.m_profiler_attached = true := by
        simpa [goodState, hp, FSlot.isX] using h
      simp [goodState, FSlot.isX, hattp]
  · exact h

theorem startTrace_good (cfg : Config) (ctx : FormatCtx) (f : PVal) (o : Int)
    {s : SysState} (h : goodState s = true) :
    goodState (xdebug_start_trace cfg ctx f o s).2 = true := by
  unfold xdebug_start_trace
  split
  · next e s1 heq =>
    split at heq
    · have := attach_good cfg ctx h
      rw [heq] at this
      exact this
    · simp [Prod.ext_iff] at heq
  · next s1 heq =>
    split at heq
    · have := attach_good cfg ctx h
      rw [heq] at this
      exact startTraceAtt_good cfg ctx _ o this
    · injection heq with h1 h2
      subst h2
      exact startTraceAtt_good cfg ctx _ o h

theorem stopTraceFin_good (fn : String) {s1 : SysState}
    (h : goodState s1 = true) :
    goodState (stop_trace_finish fn s1).2 = true := by
  unfold stop_trace_finish
  split
  · next e s2 heq =>
    have := detachIf_good h
    rw [heq] at this
    exact this
  · next s2 heq =>
    have := detachIf_good h
    rw [heq] at this
    exact this

theorem stopTrace_good {s : SysState} (h : goodState s = true) :
    goodState (xdebug_stop_trace s).2 = true := by
  unfold xdebug_stop_trace
  split
  · next hattached =>
    split
    · next p hp =>
      split
      · refine stopTraceFin_good _ ?_
        simp [goodState, FSlot.isX, hattached]
      · exact h
    · exact h
  · exact h

theorem shutdown_good (cfg : Config) {s : SysState}
    (h : goodState s = true) :
    goodState (requestShutdown cfg s).2 = true := by
  unfold requestShutdown
  split
  · exact detach_good h
  · exact h

theorem stepEvent_good (cfg : Config) (ctx : FormatCtx) {s : SysState}
    (e : Event) (h : goodState s = true) :
    goodState (stepEvent cfg ctx s e).2 = true := by
  cases e with
  | attach => exact attach_good cfg ctx h
  | detach => exact detach_good h
  | detachIfIdle => exact detachIf_good h
  | startTrace f o => exact startTrace_good cfg ctx f o h
  | stopTrace => exact stopTrace_good h
  | shutdown => exact shutdown_good cfg h

theorem runEvents_good (cfg : Config) (ctx : FormatCtx) (evs : List Event)
    {s : SysState} (h : goodState s = true) :
    goodState (runEvents cfg ctx s evs).2 = true := by
  induction evs generalizing s with
  | nil => exact h
  | cons e rest ih =>
    exact ih (stepEvent_good cfg ctx e h)

end XDebug

namespace XDebug

theorem start_profiling_tracing (cfg : Config) (ctx : FormatCtx)
    (p : Profiler) : (start_profiling cfg ctx p).tracing = p.tracing := by
  unfold start_profiling Profiler.enableProfiling
  simp only []
  split <;> rfl

theorem attachedProfiler_tracing (cfg : Config) (ctx : FormatCtx) :
    (attachedProfiler cfg ctx).tracing = false := by
  unfold attachedProfiler Profiler.setCollectMemory Profiler.setCollectTime
  split
  · simpa using start_profiling_tracing cfg ctx freshProfiler
  · rfl

theorem attach_from_empty (cfg : Config) (ctx : FormatCtx)
    (hT : cfg.tracingNeeded = false) :
    attach_xdebug_profiler cfg ctx sInit =
      (none, { m_profiler_attached := true,
               slot := FSlot.xdebug (attachedProfiler cfg ctx) }) := by
  unfold attach_xdebug_profiler sInit attachedProfiler
  simp [hT]

theorem merged_zero_naked (cfg : Config) :
    (Int.land (mergedTraceOptions cfg 0) k_XDEBUG_TRACE_NAKED_FILENAME
      == 0) = true := by
  simp only [mergedTraceOptions, k_XDEBUG_TRACE_APPEND,
    k_XDEBUG_TRACE_COMPUTERIZED, k_XDEBUG_TRACE_HTML,
    k_XDEBUG_TRACE_NAKED_FILENAME]
  split <;> split <;> split <;> decide

theorem start_tracing_eq (cfg : Config) (ctx : FormatCtx) (p : Profiler)
    (tf : Option String) (o : Int) (htr : p.tracing = false) :
    start_tracing cfg ctx p tf o = tracedProfiler cfg ctx p tf o := by
  unfold start_tracing tracedProfiler tracePath Profiler.enableTracing
  cases tf <;> simp [htr]

theorem start_trace_attached_eq (cfg : Config) (ctx : FormatCtx)
    (tf : Option String) (o : Int) (s1 : SysState) (p : Profiler)
    (hatt : s1.m_profiler_attached = true)
    (hp : s1.slot = FSlot.xdebug p) (htr : p.tracing = false) :
    start_trace_attached cfg ctx tf o s1 =
      (Except.ok (RVal.vpath (tracePath cfg ctx tf o)),
       { s1 with slot := FSlot.xdebug (tracedProfiler cfg ctx p tf o) }) := by
  unfold start_trace_attached
  rw [hp]
  simp only [Profiler.isTracing, htr]
  rw [start_tracing_eq cfg ctx p tf o htr]
  simp [Profiler.beginFrame, xdebug_get_tracefile_name, hatt,
    Profiler.isTracing, tracedProfiler, Profiler.getTracingFilename]

theorem stop_trace_tracing (s : SysState) (p : Profiler)
    (hatt : s.m_profiler_attached = true)
    (hp : s.slot = FSlot.xdebug p) (htr : p.tracing = true) :
    (xdebug_stop_trace s).1 = Except.ok (RVal.vpath p.tracingFilename)
    ∧ tracingActive (xdebug_stop_trace s).2 = false := by
  unfold xdebug_stop_trace
  rw [hp]
  simp only [hatt, if_true, Profiler.isTracing, htr, if_pos]
  unfold stop_trace_finish detach_xdebug_profiler_if_needed
  by_cases hc : p.profiling
  · simp [Profiler.disableTracing, Profiler.isCollecting, hc, hatt,
      Profiler.getTracingFilename, tracingActive]
  · simp [Profiler.disableTracing, Profiler.isCollecting, hc, hatt,
      detach_xdebug_profiler, Profiler.getTracingFilename, tracingActive]

theorem stop_trace_not_attached (s : SysState)
    (h : s.m_profiler_attached = false) :
    xdebug_stop_trace s = (Except.ok RVal.vfalse, s) := by
  unfold xdebug_stop_trace
  simp [h]

theorem stop_trace_not_tracing (s : SysState) (p : Profiler)
    (hatt : s.m_profiler_attached = true)
    (hp : s.slot = FSlot.xdebug p) (htr : p.tracing = false) :
    xdebug_stop_trace s = (Except.ok RVal.vfalse, s) := by
  unfold xdebug_stop_trace
  rw [hp]
  simp [hatt, Profiler.isTracing, htr]

end XDebug

namespace XDebug

theorem shutdown_detached (cfg : Config) (s : SysState)
    (hE : cfg.Enable = true) :
    (requestShutdown cfg s).2.m_profiler_attached = false := by
  unfold requestShutdown detach_xdebug_profiler
  by_cases hs : s.m_profiler_attached
  · simp [hE, hs]
  · simp [hE, hs]

theorem tracePath_some_zero (cfg : Config) (ctx : FormatCtx) (f : String) :
    tracePath cfg ctx (some f) 0 = format_filename ctx none f true := by
  unfold tracePath
  rw [merged_zero_naked]

theorem start_trace_from_empty (cfg : Config) (ctx : FormatCtx)
    (v : PVal) (o : Int) (hT : cfg.tracingNeeded = false) :
    xdebug_start_trace cfg ctx v o sInit =
      (Except.ok (RVal.vpath (tracePath cfg ctx (traceFileOf v) o)),
       { m_profiler_attached := true,
         slot := FSlot.xdebug
           (tracedProfiler cfg ctx (attachedProfiler cfg ctx)
             (traceFileOf v) o) }) := by
  unfold xdebug_start_trace
  rw [if_pos (by rfl), attach_from_empty cfg ctx hT]
  exact start_trace_attached_eq cfg ctx (traceFileOf v) o _ _ rfl rfl
    (attachedProfiler_tracing cfg ctx)

theorem start_trace_from_attached (cfg : Config) (ctx : FormatCtx)
    (v : PVal) (o : Int) (s : SysState) (p : Profiler)
    (hatt : s.m_profiler_attached = true)
    (hp : s.slot = FSlot.xdebug p) (htr : p.tracing = false) :
    xdebug_start_trace cfg ctx v o s =
      (Except.ok (RVal.vpath (tracePath cfg ctx (traceFileOf v) o)),
       { s with slot :=
           FSlot.xdebug (tracedProfiler cfg ctx p (traceFileOf v) o) }) := by
  unfold xdebug_start_trace
  rw [if_neg (by simp [hatt])]
  exact start_trace_attached_eq cfg ctx (traceFileOf v) o s p hatt hp htr

end XDebug

namespace XDebug

/-- C3 counterexample: on a context whose session-name setting is absent,
the template `"%S"` resolves to a literal `"%"`, not to the empty string
the claim requires. -/
theorem xdebug_c3_counterexample :
    format_filename ctxNoSession none "%S" false = "%"
    ∧ ¬ format_filename ctxNoSession none "%S" false = "" := by
  constructor
  · rfl
  · decide

/-- C3 (amended): the `%S` directive contributes the sanitized session id
when the session-name setting is present and the cookie array the source
reads holds that name bound to a string; contributes the empty string
when the setting is present but the cookie is missing or not a string;
and contributes a literal `%` (the fallthrough into the literal-percent
case) when the session-name setting is absent. -/
theorem xdebug_c3_session_directive (ctx : FormatCtx) (rest : List Char) :
    (ctx.sessionName = none →
      formatChars ctx ('%' :: 'S' :: rest) = "%" ++ formatChars ctx rest)
    ∧ (∀ (sname v : String), ctx.sessionName = some sname →
        lookupKey (cookieArr ctx.globals) sname = some (PVal.vstr v) →
        formatChars ctx ('%' :: 'S' :: rest)
          = replace_special_chars v ++ formatChars ctx rest)
    ∧ (∀ sname : String, ctx.sessionName = some sname →
        (∀ v : String,
          lookupKey (cookieArr ctx.globals) sname ≠ some (PVal.vstr v)) →
        formatChars ctx ('%' :: 'S' :: rest) = formatChars ctx rest) := by
  refine ⟨?_, ?_, ?_⟩
  · intro hs
    simp [formatChars, directive, hs]
  · intro sname v hs hlk
    have he : aexists (cookieArr ctx.globals) sname = true := by
      simp [aexists, hlk]
    have hg : aget (cookieArr ctx.globals) sname = PVal.vstr v := by
      simp [aget, hlk]
    simp [formatChars, directive, hs, he, hg, PVal.isString, PVal.toStr]
  · intro sname hs hnv
    rcases hw : lookupKey (cookieArr ctx.globals) sname with _ | w
    · simp [formatChars, directive, hs, aexists, aget, hw]
    · cases w with
      | vstr v => exact absurd hw (hnv v)
      | vnull =>
        simp [formatChars, directive, hs, aexists, aget, hw, PVal.isString]
      | vbool b =>
        simp [formatChars, directive, hs, aexists, aget, hw, PVal.isString]
      | vint n =>
        simp [formatChars, directive, hs, aexists, aget, hw, PVal.isString]
      | varr a =>
        simp [formatChars, directive, hs, aexists, aget, hw, PVal.isString]

/-- C3 witness: a present session-name setting with a matching string
cookie contributes the sanitized session id. -/
theorem xdebug_c3_witness :
    formatChars ctxSession ('%' :: 'S' :: [])
      = replace_special_chars "a.b c" ++ formatChars ctxSession [] :=
  (xdebug_c3_session_directive ctxSession []).2.1 "PHPSESSID" "a.b c" rfl
    (by rfl)

/-- C4: evaluation at the failing input.  A trigger key present only in
the real `$_COOKIE` superglobal is not seen by `isTriggerSet` (which
reads the misspelled key `"_COOOKIE"`), so the policy check does not
attach; storing the same trigger under `"_COOOKIE"` is seen. -/
theorem xdebug_c4_cookie_trigger_ignored :
    isTriggerSet gCookieOnly "XDEBUG_PROFILE" = false
    ∧ (requestInit cfgA ctxC4 sInit).2.m_profiler_attached = false
    ∧ isTriggerSet gTypoCookie "XDEBUG_PROFILE" = true := by
  refine ⟨by decide, by decide, by decide⟩

/-- C5: evaluation at the failing input.  `$_SERVER` carries
`REQUEST_URI` yet `%R` contributes nothing, because the presence test
consults the top-level globals array; adding a top-level `REQUEST_URI`
key makes the directive emit the sanitized server value. -/
theorem xdebug_c5_request_uri_presence_bug :
    aexists (serverArr ctxC5) "REQUEST_URI" = true
    ∧ format_filename ctxC5 none "%R" false = ""
    ∧ format_filename ctxC5top none "%R" false = "_foo_bar" := by
  refine ⟨by decide, by decide, by decide⟩

/-- C6: starting code coverage with a nonzero options value fails with
the unsupported-option error and leaves the whole coverage state
unchanged; with options zero it sets the coverage flag and leaves the
accumulated data untouched. -/
theorem xdebug_c6_coverage_option_guard (options : Int) (st : CovState) :
    (options ≠ 0 →
      xdebug_start_code_coverage options st
        = (some XErr.unsupportedOption, st))
    ∧ (xdebug_start_code_coverage options st).2.covData = st.covData
    ∧ (options = 0 →
      xdebug_start_code_coverage options st
        = (none, { st with coverage := true })) := by
  refine ⟨?_, ?_, ?_⟩
  · intro h
    simp [xdebug_start_code_coverage, h]
  · by_cases h : options = 0 <;> simp [xdebug_start_code_coverage, h]
  · intro h
    simp [xdebug_start_code_coverage, h]

/-- C6 witness: concrete evaluations of both branches of the guard. -/
theorem xdebug_c6_witness :
    xdebug_start_code_coverage 1 { coverage := false, covData := [("f", 3)] }
      = (some XErr.unsupportedOption,
         { coverage := false, covData := [("f", 3)] })
    ∧ xdebug_start_code_coverage 0 { coverage := false, covData := [("f", 3)] }
      = (none, { coverage := true, covData := [("f", 3)] }) :=
  ⟨(xdebug_c6_coverage_option_guard 1
      { coverage := false, covData := [("f", 3)] }).1 (by decide),
   (xdebug_c6_coverage_option_guard 0
      { coverage := false, covData := [("f", 3)] }).2.2 rfl⟩

/-- C8: a `%` followed by a character outside the directive table is
copied literally together with that character; `"%q"` resolves to
`"%q"`; a trailing `%` is copied literally; `"%%"` emits a single
`%`. -/
theorem xdebug_c8_unrecognized_directive (ctx : FormatCtx) (c : Char)
    (rest : List Char) (h : isDirectiveChar c = false) :
    formatChars ctx ('%' :: c :: rest)
        = "%" ++ String.singleton c ++ formatChars ctx rest
    ∧ format_filename ctx none "%q" false = "%q"
    ∧ formatChars ctx ['%'] = "%"
    ∧ (∀ a : Char, a ≠ '%' →
        formatChars ctx [a, '%'] = String.singleton a ++ "%")
    ∧ formatChars ctx ('%' :: '%' :: rest) = "%" ++ formatChars ctx rest := by
  refine ⟨?_, ?_, ?_, ?_, ?_⟩
  · simp only [isDirectiveChar, Bool.or_eq_false_iff] at h
    obtain ⟨⟨⟨⟨⟨⟨⟨⟨⟨⟨h1, h2⟩, h3⟩, h4⟩, h5⟩, h6⟩, h7⟩, h8⟩, h9⟩, h10⟩,
      h11⟩ := h
    simp [formatChars, directive, h1, h2, h3, h4, h5, h6, h7, h8, h9, h10,
      h11]
  · rfl
  · rfl
  · intro a ha
    simp [formatChars, ha]
  · simp [formatChars, directive]

/-- C8 witness: the unrecognized directive `%q` at a concrete context. -/
theorem xdebug_c8_witness :
    formatChars ctxA ('%' :: 'q' :: [])
      = "%" ++ String.singleton 'q' ++ formatChars ctxA [] :=
  (xdebug_c8_unrecognized_directive ctxA 'q' [] (by decide)).1

/-- C9: the memory-usage query clamps the allocator reading at zero:
it is never negative, equals the maximum of the reading and zero,
returns zero on a negative reading and the reading itself otherwise. -/
theorem xdebug_c9_memory_usage_nonneg (usage : Int) :
    0 ≤ xdebug_memory_usage usage
    ∧ xdebug_memory_usage usage = max usage 0
    ∧ (usage < 0 → xdebug_memory_usage usage = 0)
    ∧ (0 ≤ usage → xdebug_memory_usage usage = usage) := by
  refine ⟨le_max_right _ _, rfl, ?_, ?_⟩
  · intro h
    exact max_eq_right h.le
  · intro h
    exact max_eq_left h

/-- C9 witness: a negative jemalloc-style reading yields zero. -/
theorem xdebug_c9_witness :
    0 ≤ xdebug_memory_usage (-5) ∧ xdebug_memory_usage (-5) = 0 :=
  ⟨(xdebug_c9_memory_usage_nonneg (-5)).1,
   (xdebug_c9_memory_usage_nonneg (-5)).2.2.1 (by decide)⟩

end XDebug

namespace XDebug

/-- C1: the attachment flag is an accurate state-machine variable: along
any valid run of the operations (no source assertion violated), every
reached state satisfies the flag-accuracy invariant (flag set iff the
xdebug profiler is bound); a second attach without an intervening detach
violates the attach precondition, as does a second detach without an
intervening successful attach; a successful attach is exactly a factory
start from the free slot and sets the flag; a failed attach changes
nothing; a detach from the attached state succeeds and clears the flag;
and request shutdown with the extension enabled always ends detached. -/
theorem xdebug_c1_attachment_flag_state_machine
    (cfg : Config) (ctx : FormatCtx) (s0 : SysState) (evs : List Event)
    (h0 : goodState s0 = true)
    (_hvalid : (runEvents cfg ctx s0 evs).1 = true) :
    (∀ n : Nat, goodState (runEvents cfg ctx s0 (List.take n evs)).2 = true)
    ∧ (∀ s : SysState, s.m_profiler_attached = true →
        attach_xdebug_profiler cfg ctx s = (some XErr.assertFail, s))
    ∧ (∀ s : SysState, s.m_profiler_attached = false →
        detach_xdebug_profiler s = (some XErr.assertFail, s))
    ∧ (∀ s : SysState, s.m_profiler_attached = false →
        (((attach_xdebug_profiler cfg ctx s).1 = none)
          ↔ s.slot = FSlot.empty))
    ∧ (∀ s : SysState, s.m_profiler_attached = false →
        (attach_xdebug_profiler cfg ctx s).1 = none →
        (attach_xdebug_profiler cfg ctx s).2.m_profiler_attached = true)
    ∧ (∀ s : SysState, s.m_profiler_attached = false →
        (attach_xdebug_profiler cfg ctx s).1 ≠ none →
        (attach_xdebug_profiler cfg ctx s).2 = s)
    ∧ (∀ s : SysState, s.m_profiler_attached = true →
        (detach_xdebug_profiler s).1 = none
        ∧ (detach_xdebug_profiler s).2.m_profiler_attached = false)
    ∧ (cfg.Enable = true →
        (requestShutdown cfg
          (runEvents cfg ctx s0 evs).2).2.m_profiler_attached = false) := by
  refine ⟨?_, ?_, ?_, ?_, ?_, ?_, ?_, ?_⟩
  · intro n
    exact runEvents_good cfg ctx _ h0
  · intro s hs
    unfold attach_xdebug_profiler
    simp [hs]
  · intro s hs
    unfold detach_xdebug_profiler
    simp [hs]
  · rintro ⟨att, sl⟩ hs
    subst hs
    cases sl <;> simp [attach_xdebug_profiler]
  · rintro ⟨att, sl⟩ hs h1
    subst hs
    cases sl <;> simp [attach_xdebug_profiler] at h1 ⊢
  · rintro ⟨att, sl⟩ hs h1
    subst hs
    cases sl <;> simp [attach_xdebug_profiler] at h1 ⊢
  · intro s hs
    unfold detach_xdebug_profiler
    simp [hs]
  · intro hE
    exact shutdown_detached cfg _ hE

/-- C1 witness: a concrete valid run (start-trace, stop-trace, shutdown)
from the initial state ends detached after shutdown. -/
theorem xdebug_c1_witness :
    (requestShutdown cfgA
      (runEvents cfgA ctxA sInit evsA).2).2.m_profiler_attached = false :=
  (xdebug_c1_attachment_flag_state_machine cfgA ctxA sInit evsA (by decide)
    (by decide)).2.2.2.2.2.2.2 rfl

end XDebug

namespace XDebug

/-- C2 counterexample: when configuration requests automatic tracing at
attach, the explicit start-trace from the detached state returns boolean
false (the attach already started tracing), not the resolved absolute
path the claim requires. -/
theorem xdebug_c2_counterexample :
    (xdebug_start_trace cfgAutoTrace ctxA (PVal.vstr "foo") 0 sInit).1
      = Except.ok RVal.vfalse
    ∧ ¬ (xdebug_start_trace cfgAutoTrace ctxA (PVal.vstr "foo") 0 sInit).1
      = Except.ok (RVal.vpath (format_filename ctxA none "foo" true)) := by
  constructor
  · rfl
  · intro h
    exact RVal.noConfusion (Except.ok.inj h)

/-- C2 (amended): from the detached state with a free factory slot and no
automatic tracing configured at attach, or from an attached state whose
profiler is not tracing, start-trace with a string filename and options 0
returns the resolved absolute path; an immediately following stop-trace
returns that exact path, after which tracing is off; stop-trace when not
attached, or attached but not tracing, returns boolean false and changes
no state. -/
theorem xdebug_c2_round_trip (cfg : Config) (ctx : FormatCtx)
    (fname : String) (s : SysState)
    (h : (s = sInit ∧ cfg.tracingNeeded = false)
       ∨ (∃ p : Profiler, s.m_profiler_attached = true
            ∧ s.slot = FSlot.xdebug p ∧ p.tracing = false)) :
    ((xdebug_start_trace cfg ctx (PVal.vstr fname) 0 s).1
        = Except.ok (RVal.vpath (format_filename ctx none fname true)))
    ∧ ((xdebug_stop_trace
          (xdebug_start_trace cfg ctx (PVal.vstr fname) 0 s).2).1
        = Except.ok (RVal.vpath (format_filename ctx none fname true)))
    ∧ tracingActive
        (xdebug_stop_trace
          (xdebug_start_trace cfg ctx (PVal.vstr fname) 0 s).2).2 = false
    ∧ (∀ t : SysState, t.m_profiler_attached = false →
        xdebug_stop_trace t = (Except.ok RVal.vfalse, t))
    ∧ (∀ (t : SysState) (p : Profiler), t.m_profiler_attached = true →
        t.slot = FSlot.xdebug p → p.tracing = false →
        xdebug_stop_trace t = (Except.ok RVal.vfalse, t)) := by
  have key : ∃ (p2 : Profiler) (s2 : SysState),
      xdebug_start_trace cfg ctx (PVal.vstr fname) 0 s
        = (Except.ok (RVal.vpath (format_filename ctx none fname true)), s2)
      ∧ s2.m_profiler_attached = true
      ∧ s2.slot = FSlot.xdebug p2
      ∧ p2.tracing = true
      ∧ p2.tracingFilename = format_filename ctx none fname true := by
    have hTF : traceFileOf (PVal.vstr fname) = some fname := rfl
    rcases h with ⟨rfl, hT⟩ | ⟨p, hatt, hp, htr⟩
    · refine ⟨tracedProfiler cfg ctx (attachedProfiler cfg ctx)
        (some fname) 0,
        { m_profiler_attached := true,
          slot := FSlot.xdebug (tracedProfiler cfg ctx
            (attachedProfiler cfg ctx) (some fname) 0) },
        ?_, rfl, rfl, rfl, ?_⟩
      · have heq := start_trace_from_empty cfg ctx (PVal.vstr fname) 0 hT
        rw [hTF] at heq
        rw [heq, tracePath_some_zero]
      · show tracePath cfg ctx (some fname) 0 = _
        exact tracePath_some_zero cfg ctx fname
    · refine ⟨tracedProfiler cfg ctx p (some fname) 0,
        { s with slot :=
            FSlot.xdebug (tracedProfiler cfg ctx p (some fname) 0) },
        ?_, hatt, rfl, rfl, ?_⟩
      · have heq := start_trace_from_attached cfg ctx (PVal.vstr fname) 0
          s p hatt hp htr
        rw [hTF] at heq
        rw [heq, tracePath_some_zero]
      · show tracePath cfg ctx (some fname) 0 = _
        exact tracePath_some_zero cfg ctx fname
  obtain ⟨p2, s2, heq, h2a, h2s, h2t, h2f⟩ := key
  have hstop := stop_trace_tracing s2 p2 h2a h2s h2t
  refine ⟨?_, ?_, ?_, ?_, ?_⟩
  · rw [heq]
  · rw [heq]
    show (xdebug_stop_trace s2).1 = _
    rw [hstop.1, h2f]
  · rw [heq]
    exact hstop.2
  · intro t ht
    exact stop_trace_not_attached t ht
  · intro t p ht hp htr
    exact stop_trace_not_tracing t p ht hp htr

/-- C2 witness: the concrete round trip from the initial state with
filename `"foo"`. -/
theorem xdebug_c2_witness :
    (xdebug_start_trace cfgA ctxA (PVal.vstr "foo") 0 sInit).1
      = Except.ok (RVal.vpath (format_filename ctxA none "foo" true)) :=
  (xdebug_c2_round_trip cfgA ctxA "foo" sInit (Or.inl ⟨rfl, rfl⟩)).1

/-- C7: start-trace when the profiler is already tracing returns boolean
false without error and changes no state (in particular the existing
trace filename and options are untouched); start-trace when another
profiler occupies the factory slot surfaces the profiler-unavailable
error and changes no state. -/
theorem xdebug_c7_already_tracing (cfg : Config) (ctx : FormatCtx)
    (v : PVal) (o : Int) (s : SysState) (p : Profiler)
    (hatt : s.m_profiler_attached = true)
    (hp : s.slot = FSlot.xdebug p) (htr : p.tracing = true) :
    xdebug_start_trace cfg ctx v o s = (Except.ok RVal.vfalse, s)
    ∧ (∀ t : SysState, t.m_profiler_attached = false →
        t.slot = FSlot.other →
        xdebug_start_trace cfg ctx v o t
          = (Except.error XErr.profilerUnavailable, t)) := by
  constructor
  · unfold xdebug_start_trace
    rw [if_neg (by simp [hatt])]
    show start_trace_attached cfg ctx (traceFileOf v) o s = _
    unfold start_trace_attached
    rw [hp]
    simp [Profiler.isTracing, htr]
  · intro t h1 h2
    unfold xdebug_start_trace
    rw [if_pos (by simp [h1])]
    unfold attach_xdebug_profiler
    rw [if_neg (by simp [h1]), h2]

/-- C7 witness: start-trace on a concrete attached-and-tracing state. -/
theorem xdebug_c7_witness :
    xdebug_start_trace cfgA ctxA (PVal.vstr "foo") 0 sTracing
      = (Except.ok RVal.vfalse, sTracing) :=
  (xdebug_c7_already_tracing cfgA ctxA (PVal.vstr "foo") 0 sTracing
    pTracing rfl rfl rfl).1

/-- C10: a non-string trace-file argument to start-trace behaves exactly
as a missing filename: the call is accepted without error and equals the
call with the null argument; when tracing actually starts (attached, not
yet tracing) the resolved path comes from the configured default trace
output directory and default filename template. -/
theorem xdebug_c10_nonstring_filename (cfg : Config) (ctx : FormatCtx)
    (v : PVal) (o : Int) (s : SysState) (hns : v.isString = false) :
    xdebug_start_trace cfg ctx v o s
      = xdebug_start_trace cfg ctx PVal.vnull o s
    ∧ (∀ p : Profiler, s.m_profiler_attached = true →
        s.slot = FSlot.xdebug p → p.tracing = false →
        (xdebug_start_trace cfg ctx v o s).1
          = Except.ok (RVal.vpath (format_filename ctx
              (some cfg.TraceOutputDir) cfg.TraceOutputName
              (Int.land (mergedTraceOptions cfg o)
                k_XDEBUG_TRACE_NAKED_FILENAME == 0)))) := by
  have hTF : traceFileOf v = none := by
    simp [traceFileOf, hns]
  constructor
  · unfold xdebug_start_trace
    rw [hTF, show traceFileOf PVal.vnull = none from rfl]
  · intro p hatt hp htr
    rw [start_trace_from_attached cfg ctx v o s p hatt hp htr, hTF]
    rfl

/-- C10 witness: an integer trace-file argument equals the null
argument. -/
theorem xdebug_c10_witness :
    xdebug_start_trace cfgA ctxA (PVal.vint 3) 0 sInit
      = xdebug_start_trace cfgA ctxA PVal.vnull 0 sInit :=
  (xdebug_c10_nonstring_filename cfgA ctxA (PVal.vint 3) 0 sInit rfl).1

end XDebug
